import Mathlib

/-!
Verification of czmq's `zdir_patch` class (src/zdir_patch.c), a shallow
embedding in Lean 4.  A patch is a record describing one directory change
(create or delete of one file).  C strings are modelled as Lean `String`s,
the nullable `digest` pointer as `Option String`, and the external `zfile`
collaborator (not part of this file's code) as a value type carrying the
two observations `zdir_patch` uses: its name relative to a directory path
and its content digest.  C `assert` failures and undefined behaviour are
modelled by returning `none` from the constructor.
-/

namespace CZMQ

/-- The operation kind of a patch: `patch_create` or `patch_delete`
(the `zdir_patch_op_t` enum). -/
inductive zdir_patch_op_t where
  | patch_create : zdir_patch_op_t
  | patch_delete : zdir_patch_op_t
deriving DecidableEq, Repr

export zdir_patch_op_t (patch_create patch_delete)

/-- External collaborator: a `zfile_t` item, abstracted to the two
observations the patch code consumes.  `filename p` is what
`zfile_filename (file, p)` returns (the file's name relative to `p`);
`digest` is what `zfile_digest (file)` returns (`none` models a NULL
return, e.g. an unreadable file). -/
structure zfile_t where
  filename : String → String
  digest : Option String

/-- `zfile_dup`: duplication of a file handle.  With value semantics the
independent copy is the value itself. -/
def zfile_dup (file : zfile_t) : zfile_t := file

/-- `zfile_filename (file, path)`: the file's name relative to `path`. -/
def zfile_filename (file : zfile_t) (path : String) : String :=
  file.filename path

/-- `zfile_digest (file)`: content digest string, or `none` (NULL). -/
def zfile_digest (file : zfile_t) : Option String :=
  file.digest

/-- Structure of the class (`struct _zdir_patch_t`): directory path,
virtual file path, the file referred to, the operation, and the cached
SHA-1 digest (`none` = NULL pointer = absent). -/
structure _zdir_patch_t where
  path : String
  vpath : String
  file : zfile_t
  op : zdir_patch_op_t
  digest : Option String

/-- First character of a C string (`*s`), `none` when the string is
empty (the terminator). -/
def firstChar (s : String) : Option Char :=
  s.data.head?

/-- Last character of a C string, `none` when empty. -/
def lastChar (s : String) : Option Char :=
  s.data.getLast?

/-- The index `strlen (alias) - 1` read by the constructor's
trailing-separator test, computed as C computes it: in `size_t`
arithmetic modulo 2^64 (so for the empty string it wraps to
`SIZE_MAX`). -/
def aliasIndex (alias_ : String) : Nat :=
  (alias_.length + 2 ^ 64 - 1) % 2 ^ 64

/-- Size of the buffer `zmalloc`ed for `vpath` in the constructor:
`strlen (alias) + strlen (filename) + 2`. -/
def vpath_alloc (alias_ filename : String) : Nat :=
  alias_.length + filename.length + 2

/-- `zdir_patch_new (path, file, op, alias)`: constructor.  Duplicates
the file, then derives `filename = zfile_filename (file, path)` and
asserts its first character is not '/'; builds `vpath` as the alias
plus filename with exactly one separator, reading the alias's last
character at index `strlen (alias) - 1` (undefined for an empty alias).
`none` models the assertion failure / out-of-bounds read. -/
def zdir_patch_new (path : String) (file : zfile_t) (op : zdir_patch_op_t)
    (alias_ : String) : Option _zdir_patch_t :=
  if firstChar (zfile_filename file path) = some '/' then
    none
  else if alias_.length = 0 then
    none
  else
    some { path := path
           file := zfile_dup file
           op := op
           vpath :=
             if lastChar alias_ = some '/' then
               alias_ ++ zfile_filename file path
             else
               alias_ ++ "/" ++ zfile_filename file path
           digest := none }

/-- `zdir_patch_destroy (self_p)`: frees the patch if the owner's
reference is non-NULL and nulls the reference.  The owner's reference
`*self_p` is modelled as `Option _zdir_patch_t`; the function returns
the reference's new value. -/
def zdir_patch_destroy (self_p : Option _zdir_patch_t) :
    Option _zdir_patch_t :=
  match self_p with
  | some _ => none
  | none => none

/-- `zdir_patch_dup (self)`: copy of a patch.  The digest is copied
verbatim when present (`strdup`) and left NULL when absent; it is never
recomputed. -/
def zdir_patch_dup (self : _zdir_patch_t) : _zdir_patch_t :=
  { path := self.path
    file := zfile_dup self.file
    op := self.op
    vpath := self.vpath
    digest := self.digest }

/-- `zdir_patch_path (self)`: the patch's directory path. -/
def zdir_patch_path (self : _zdir_patch_t) : String := self.path

/-- `zdir_patch_file (self)`: the patch's file item. -/
def zdir_patch_file (self : _zdir_patch_t) : zfile_t := self.file

/-- `zdir_patch_op (self)`: the patch's operation. -/
def zdir_patch_op (self : _zdir_patch_t) : zdir_patch_op_t := self.op

/-- `zdir_patch_vpath (self)`: the patch's virtual file path. -/
def zdir_patch_vpath (self : _zdir_patch_t) : String := self.vpath

/-- `zdir_patch_digest_set (self)`: computes the digest if the
operation is `patch_create` and no digest is cached yet; otherwise a
no-op.  Returns the updated patch state. -/
def zdir_patch_digest_set (self : _zdir_patch_t) : _zdir_patch_t :=
  if self.op = patch_create ∧ self.digest = none then
    { self with digest := zfile_digest self.file }
  else
    self

/-- `zdir_patch_digest (self)`: the cached digest, or absent. -/
def zdir_patch_digest (self : _zdir_patch_t) : Option String :=
  self.digest

/-- Concrete file for tests: named "bilbo" relative to any directory,
with a readable content digest (mirrors the selftest's file). -/
def bilboFile : zfile_t :=
  ⟨fun _ => "bilbo", some "da39a3ee5e6b4b0d3255bfef95601890afd80709"⟩

/-- Concrete file whose derived name starts with '/': violates the
constructor's precondition. -/
def slashFile : zfile_t :=
  ⟨fun _ => "/bilbo", none⟩

/-- The patch the selftest's construction produces:
`zdir_patch_new (".", bilboFile, patch_create, "/")`. -/
def bilboPatch : _zdir_patch_t :=
  ⟨".", "/bilbo", bilboFile, patch_create, none⟩

/-- A concrete delete patch as produced by the constructor. -/
def deletePatch : _zdir_patch_t :=
  ⟨".", "/bilbo", bilboFile, patch_delete, none⟩

/-- A concrete create patch whose digest is already cached. -/
def cachedPatch : _zdir_patch_t :=
  ⟨".", "/bilbo", bilboFile, patch_create,
   some "da39a3ee5e6b4b0d3255bfef95601890afd80709"⟩

/-- A string has positive length exactly when it is not the empty
string. -/
theorem string_length_pos_iff (s : String) : 0 < s.length ↔ s ≠ "" := by
  cases s with
  | mk d =>
    simpa [String.length, String.ext_iff] using List.length_pos (l := d)

/-- On a patch whose operation is `patch_delete`,
`zdir_patch_digest_set` is the identity. -/
theorem digest_set_delete_fixed (p : _zdir_patch_t)
    (h : p.op = patch_delete) : zdir_patch_digest_set p = p := by
  unfold zdir_patch_digest_set
  rw [h]
  simp

/-- On a patch whose digest is already cached, `zdir_patch_digest_set`
is the identity. -/
theorem digest_set_cached_fixed (p : _zdir_patch_t) (d : String)
    (hd : p.digest = some d) : zdir_patch_digest_set p = p := by
  have hnc : ¬ (p.op = patch_create ∧ p.digest = none) := by
    rintro ⟨-, h2⟩
    rw [hd] at h2
    exact Option.noConfusion h2
  unfold zdir_patch_digest_set
  rw [if_neg hnc]

/-- Successful construction determines every field of the patch. -/
theorem zdir_patch_new_some (path : String) (file : zfile_t)
    (op : zdir_patch_op_t) (alias_ : String) (p : _zdir_patch_t)
    (h : zdir_patch_new path file op alias_ = some p) :
    p.path = path ∧ p.file = file ∧ p.op = op ∧ p.digest = none ∧
    p.vpath = (if lastChar alias_ = some '/'
               then alias_ ++ zfile_filename file path
               else alias_ ++ "/" ++ zfile_filename file path) := by
  unfold zdir_patch_new at h
  split at h
  · exact absurd h (by simp)
  · split at h
    · exact absurd h (by simp)
    · injection h with h
      subst h
      exact ⟨rfl, rfl, rfl, rfl, rfl⟩

/-- C1: for every successful construction of a patch with alias `alias_`
and derived filename `f = zfile_filename file path`, the resulting
virtual path is `alias_ ++ f` when the alias's last character is '/',
and `alias_ ++ "/" ++ f` otherwise, so exactly one separator is inserted
between them. -/
theorem c1_virtual_path_single_separator (path : String) (file : zfile_t)
    (op : zdir_patch_op_t) (alias_ : String) (p : _zdir_patch_t)
    (h : zdir_patch_new path file op alias_ = some p) :
    (lastChar alias_ = some '/' →
      zdir_patch_vpath p = alias_ ++ zfile_filename file path) ∧
    (lastChar alias_ ≠ some '/' →
      zdir_patch_vpath p = alias_ ++ "/" ++ zfile_filename file path) := by
  obtain ⟨-, -, -, -, hv⟩ := zdir_patch_new_some path file op alias_ p h
  constructor
  · intro hl
    rw [zdir_patch_vpath, hv, if_pos hl]
  · intro hl
    rw [zdir_patch_vpath, hv, if_neg hl]

/-- C1 witness: the selftest's construction (directory ".", file
"bilbo", alias "/") yields virtual path "/bilbo"; a construction with
alias "/data" (no trailing separator) and filename "todo.txt" yields
"/data/todo.txt". -/
theorem c1_witness :
    zdir_patch_vpath bilboPatch = "/" ++ zfile_filename bilboFile "." ∧
    zdir_patch_vpath
        ⟨"notes", "/data/todo.txt", ⟨fun _ => "todo.txt", none⟩,
         patch_create, none⟩ =
      "/data" ++ "/" ++
        zfile_filename ⟨fun _ => "todo.txt", none⟩ "notes" := by
  constructor
  · exact (c1_virtual_path_single_separator "." bilboFile patch_create "/"
      bilboPatch rfl).1 (by decide)
  · exact (c1_virtual_path_single_separator "notes"
      ⟨fun _ => "todo.txt", none⟩ patch_create "/data"
      ⟨"notes", "/data/todo.txt", ⟨fun _ => "todo.txt", none⟩,
       patch_create, none⟩ rfl).2 (by decide)

/-- C2: construction fails fatally (models the C `assert`) exactly when
the derived filename's first character is '/'; under the precondition
that it is not (and the alias is non-empty so the separator test is
defined), construction succeeds — the assertion's failure branch is
unreachable. -/
theorem c2_filename_assert (path : String) (file : zfile_t)
    (op : zdir_patch_op_t) (alias_ : String) :
    (firstChar (zfile_filename file path) = some '/' →
      zdir_patch_new path file op alias_ = none) ∧
    (firstChar (zfile_filename file path) ≠ some '/' → alias_ ≠ "" →
      (zdir_patch_new path file op alias_).isSome = true) := by
  constructor
  · intro hf
    rw [zdir_patch_new, if_pos hf]
  · intro hf ha
    have hlen : ¬ alias_.length = 0 := by
      have := (string_length_pos_iff alias_).mpr ha
      omega
    rw [zdir_patch_new, if_neg hf, if_neg hlen]
    rfl

/-- C2 witness: a file whose derived name is "/bilbo" trips the
assertion (construction fails); the selftest's file "bilbo" does not
(construction succeeds). -/
theorem c2_witness :
    zdir_patch_new "." slashFile patch_create "/" = none ∧
    (zdir_patch_new "." bilboFile patch_create "/").isSome = true := by
  constructor
  · exact (c2_filename_assert "." slashFile patch_create "/").1 (by decide)
  · exact (c2_filename_assert "." bilboFile patch_create "/").2
      (by decide) (by decide)

/-- C6: immediately after construction the digest is absent, whatever
the operation — digest computation is never performed eagerly. -/
theorem c6_digest_absent_after_new (path : String) (file : zfile_t)
    (op : zdir_patch_op_t) (alias_ : String) (p : _zdir_patch_t)
    (h : zdir_patch_new path file op alias_ = some p) :
    zdir_patch_digest p = none := by
  obtain ⟨-, -, -, hd, -⟩ := zdir_patch_new_some path file op alias_ p h
  exact hd

/-- C6 witness: the digest of the selftest's freshly constructed create
patch, and of a freshly constructed delete patch, is absent. -/
theorem c6_witness :
    zdir_patch_digest bilboPatch = none ∧
    zdir_patch_digest deletePatch = none := by
  constructor
  · exact c6_digest_absent_after_new "." bilboFile patch_create "/"
      bilboPatch rfl
  · exact c6_digest_absent_after_new "." bilboFile patch_delete "/"
      deletePatch rfl

/-- C10: the virtual path produced by construction always fits in the
buffer allocated for it — its length plus the NUL terminator is at most
the allocated `strlen (alias) + strlen (filename) + 2` bytes, in both
separator branches. -/
theorem c10_vpath_fits_allocation (path : String) (file : zfile_t)
    (op : zdir_patch_op_t) (alias_ : String) (p : _zdir_patch_t)
    (h : zdir_patch_new path file op alias_ = some p) :
    (zdir_patch_vpath p).length + 1 ≤
      vpath_alloc alias_ (zfile_filename file path) := by
  obtain ⟨-, -, -, -, hv⟩ := zdir_patch_new_some path file op alias_ p h
  rw [zdir_patch_vpath, hv, vpath_alloc]
  split
  · rw [String.length_append]
    omega
  · rw [String.length_append, String.length_append]
    have : ("/" : String).length = 1 := rfl
    omega

/-- C10 witness: for the selftest's construction, the produced virtual
path "/bilbo" (6 characters) plus terminator fits in the 8 allocated
bytes. -/
theorem c10_witness :
    (zdir_patch_vpath bilboPatch).length + 1 ≤
      vpath_alloc "/" (zfile_filename bilboFile ".") :=
  c10_vpath_fits_allocation "." bilboFile patch_create "/" bilboPatch rfl

/-- C3: on a patch constructed with operation `patch_delete`, the digest
is absent after construction and remains absent after any number of
`zdir_patch_digest_set` calls, so `zdir_patch_digest` always returns
absent on it. -/
theorem c3_delete_digest_always_absent (path : String) (file : zfile_t)
    (alias_ : String) (p : _zdir_patch_t)
    (h : zdir_patch_new path file patch_delete alias_ = some p)
    (n : Nat) :
    zdir_patch_digest (zdir_patch_digest_set^[n] p) = none := by
  obtain ⟨-, -, ho, hd, -⟩ :=
    zdir_patch_new_some path file patch_delete alias_ p h
  rw [Function.iterate_fixed (digest_set_delete_fixed p ho) n]
  rw [zdir_patch_digest, hd]

/-- C3 witness: after three `zdir_patch_digest_set` calls on a freshly
constructed delete patch, the digest is still absent. -/
theorem c3_witness :
    zdir_patch_digest (zdir_patch_digest_set^[3] deletePatch) = none :=
  c3_delete_digest_always_absent "." bilboFile "/" deletePatch rfl 3

/-- C4: `zdir_patch_digest_set` is idempotent — calling it twice yields
the same state as calling it once — and once a digest is cached a
further call leaves the patch unchanged. -/
theorem c4_digest_set_idempotent (p : _zdir_patch_t) :
    zdir_patch_digest_set (zdir_patch_digest_set p) =
      zdir_patch_digest_set p ∧
    (∀ d, zdir_patch_digest p = some d → zdir_patch_digest_set p = p) := by
  constructor
  · by_cases hc : p.op = patch_create ∧ p.digest = none
    · have h1 : zdir_patch_digest_set p =
          { p with digest := zfile_digest p.file } := by
        unfold zdir_patch_digest_set
        rw [if_pos hc]
      rw [h1]
      cases hfd : zfile_digest p.file with
      | some d =>
        exact digest_set_cached_fixed _ d rfl
      | none =>
        unfold zdir_patch_digest_set
        rw [if_pos ⟨hc.1, rfl⟩]
        dsimp only
        rw [hfd]
    · have h : zdir_patch_digest_set p = p := by
        unfold zdir_patch_digest_set
        rw [if_neg hc]
      rw [h]
      exact h
  · intro d hd
    exact digest_set_cached_fixed p d hd

/-- C4 witness: on a create patch with a cached digest,
`zdir_patch_digest_set` leaves the state unchanged, and a double call
equals a single call. -/
theorem c4_witness :
    zdir_patch_digest_set cachedPatch = cachedPatch ∧
    zdir_patch_digest_set (zdir_patch_digest_set cachedPatch) =
      zdir_patch_digest_set cachedPatch := by
  constructor
  · exact (c4_digest_set_idempotent cachedPatch).2
      "da39a3ee5e6b4b0d3255bfef95601890afd80709" rfl
  · exact (c4_digest_set_idempotent cachedPatch).1

/-- C5: `zdir_patch_dup` returns a copy whose path, virtual path,
operation, and digest observations equal the original's; the digest
field is copied verbatim (absent stays absent) and duplication never
triggers digest computation. -/
theorem c5_dup_preserves_observations (p : _zdir_patch_t) :
    zdir_patch_path (zdir_patch_dup p) = zdir_patch_path p ∧
    zdir_patch_vpath (zdir_patch_dup p) = zdir_patch_vpath p ∧
    zdir_patch_op (zdir_patch_dup p) = zdir_patch_op p ∧
    zdir_patch_digest (zdir_patch_dup p) = zdir_patch_digest p :=
  ⟨rfl, rfl, rfl, rfl⟩

/-- C7: `zdir_patch_destroy` nulls the owner's reference, and a second
call on the now-null reference is a no-op that leaves it null. -/
theorem c7_double_destroy_safe (r : Option _zdir_patch_t) :
    zdir_patch_destroy r = none ∧
    zdir_patch_destroy (zdir_patch_destroy r) = zdir_patch_destroy r ∧
    zdir_patch_destroy none = (none : Option _zdir_patch_t) := by
  cases r with
  | none => exact ⟨rfl, rfl, rfl⟩
  | some p => exact ⟨rfl, rfl, rfl⟩

/-- C8: the trailing-separator test reads the alias character at
`size_t` index `strlen (alias) - 1`; that index lies within the alias's
characters exactly when the alias is non-empty (so the spec's mere
"non-null" is not enough: for the empty alias the read is
out-of-bounds, and the constructor is undefined there). -/
theorem c8_alias_index_in_bounds (path : String) (file : zfile_t)
    (op : zdir_patch_op_t) (alias_ : String)
    (h : alias_.length < 2 ^ 64) :
    (aliasIndex alias_ < alias_.length ↔ alias_ ≠ "") ∧
    zdir_patch_new path file op "" = none := by
  constructor
  · rw [← string_length_pos_iff alias_]
    unfold aliasIndex
    omega
  · unfold zdir_patch_new
    split
    · rfl
    · rfl

/-- C8 witness: for the one-character alias "/" the index is in bounds,
and construction with the empty alias "" fails. -/
theorem c8_witness :
    aliasIndex "/" < ("/" : String).length ∧
    zdir_patch_new "." bilboFile patch_create "" = none := by
  constructor
  · exact (c8_alias_index_in_bounds "." bilboFile patch_create "/"
      (by decide)).1.mpr (by decide)
  · exact (c8_alias_index_in_bounds "." bilboFile patch_create "/"
      (by decide)).2

/-- C9: frame property — `zdir_patch_digest_set` modifies at most the
digest field: path, virtual path, file handle and operation are
unchanged whether or not a digest is computed. -/
theorem c9_digest_set_frame (p : _zdir_patch_t) :
    zdir_patch_path (zdir_patch_digest_set p) = zdir_patch_path p ∧
    zdir_patch_vpath (zdir_patch_digest_set p) = zdir_patch_vpath p ∧
    zdir_patch_file (zdir_patch_digest_set p) = zdir_patch_file p ∧
    zdir_patch_op (zdir_patch_digest_set p) = zdir_patch_op p := by
  unfold zdir_patch_digest_set
  split
  · exact ⟨rfl, rfl, rfl, rfl⟩
  · exact ⟨rfl, rfl, rfl, rfl⟩

end CZMQ
